import Mathlib

/-!
Verification development for the Vectra mission-planning client.

Part A embeds the no-fly-zone avoidance pathfinder of `src/pathfinding.js`
over exact rational coordinates.  Part B embeds the zone-activity classifier
(`isZoneActive` / `parseDateSafe` / `checkWindow`).  Part C embeds the
flight-feasibility wind and ground-speed calculations of `src/utils.js` over
the real numbers (JS numbers are modelled as ideal reals; the `ToInt32`
coercion performed by the bitwise `^` operator is modelled exactly).

External geometry-library calls (turf) are modelled with standard exact
computational geometry over `ℚ`:
* `lineIntersect` on a segment against a polygon boundary is the list of
  parametric segment/segment intersection points (collinear overlaps yield
  no points, matching turf's segment sweep);
* `booleanPointInPolygon` is even-odd ray casting with boundary points
  counted as inside (turf's default `ignoreBoundary: false`);
* `centroid` is the arithmetic mean of the ring coordinates with the
  closing wrap coordinate excluded (turf's `coordEach` runs with
  `excludeWrapCoord` set);
* `nearestPointOnLine(...).properties.index` is the index of the first
  boundary segment at minimal distance (turf keeps the first strict
  improvement while scanning);
* `length` is used only to choose the shorter of two candidate detours; it
  is modelled as the sum of per-segment euclidean lengths computed with the
  executable square root `ratSqrt` (exact on perfect squares, which is the
  only place any theorem below evaluates it).  No theorem in this file
  depends on which of the two detours is chosen.
`Math.sqrt` inside the planner's `nudge` is likewise modelled by `ratSqrt`.

JS loops without a structural termination argument (`while` loops of
`calculateAvoidingPath`) are embedded with an explicit fuel parameter; a
`none` result means the fuel ran out, i.e. the modelled JS loop has not
terminated within that many iterations.
-/

namespace Vectra

/-- A coordinate pair `[lon, lat]`, modelled as exact rationals. -/
abbrev Pt : Type := ℚ × ℚ

/-- Default point used to totalise JS array indexing. -/
def dflPt : Pt := (0, 0)

/-- A linear ring (closed: last point repeats the first, as in GeoJSON). -/
abbrev Ring : Type := List Pt

/-- A zone's geometry: the list of its simple polygons (a `Polygon` is a
one-element list, a `MultiPolygon` the list turf's `flattenEach` walks).
Each polygon is its outer ring (`poly.geometry.coordinates[0]`); interior
holes are not modelled. -/
abbrev Zone : Type := List Ring

/-- Twice the signed area of triangle `o a b`; the standard orientation
test used by the exact segment-intersection model. -/
def cross (o a b : Pt) : ℚ :=
  (a.1 - o.1) * (b.2 - o.2) - (a.2 - o.2) * (b.1 - o.1)

/-- Squared euclidean distance. -/
def distSq (p q : Pt) : ℚ :=
  (p.1 - q.1) * (p.1 - q.1) + (p.2 - q.2) * (p.2 - q.2)

/-- Executable model of `Math.sqrt` on the rationals: exact whenever the
argument is the square of a rational (the only inputs at which any theorem
below evaluates it), floor-like otherwise. -/
def ratSqrt (q : ℚ) : ℚ :=
  (Int.sqrt q.num : ℚ) / (Nat.sqrt q.den : ℚ)

/-- Parametric segment/segment intersection: the single proper or touching
intersection point of `[p,q]` and `[a,b]`, `none` for parallel (including
collinear-overlapping or degenerate) configurations.  Models one step of
turf's `lineIntersect` segment sweep. -/
def segIntersection (p q a b : Pt) : Option Pt :=
  let rx := q.1 - p.1
  let ry := q.2 - p.2
  let sx := b.1 - a.1
  let sy := b.2 - a.2
  let den := rx * sy - ry * sx
  if den = 0 then none
  else
    let t := ((a.1 - p.1) * sy - (a.2 - p.2) * sx) / den
    let u := ((a.1 - p.1) * ry - (a.2 - p.2) * rx) / den
    if 0 ≤ t ∧ t ≤ 1 ∧ 0 ≤ u ∧ u ≤ 1 then some (p.1 + t * rx, p.2 + t * ry)
    else none

/-- The consecutive edges of a ring (or of a path). -/
def ringEdges (ring : List Pt) : List (Pt × Pt) :=
  ring.zip ring.tail

/-- All intersection points of segment `[p,q]` with the boundary of a ring:
`lineIntersect(lineString([p,q]), polygonToLine(ring))`. -/
def segRingIntersections (p q : Pt) (ring : Ring) : List Pt :=
  (ringEdges ring).filterMap (fun e => segIntersection p q e.1 e.2)

/-- Is `p` on the closed segment `[a,b]`? -/
def onSeg (p a b : Pt) : Bool :=
  decide (cross a b p = 0 ∧ min a.1 b.1 ≤ p.1 ∧ p.1 ≤ max a.1 b.1 ∧
    min a.2 b.2 ≤ p.2 ∧ p.2 ≤ max a.2 b.2)

/-- Model of turf's `booleanPointInPolygon` on a single ring: boundary
points count as inside (default `ignoreBoundary: false`), interior by
even-odd ray casting. -/
def pointInRing (p : Pt) (ring : Ring) : Bool :=
  if (ringEdges ring).any (fun e => onSeg p e.1 e.2) then true
  else
    ((ringEdges ring).countP (fun e =>
      decide (((e.1.2 ≤ p.2 ∧ p.2 < e.2.2) ∨ (e.2.2 ≤ p.2 ∧ p.2 < e.1.2)) ∧
        p.1 < e.1.1 + (e.2.1 - e.1.1) * (p.2 - e.1.2) / (e.2.2 - e.1.2)))) % 2 = 1

/-- `booleanPointInPolygon` against a `Polygon`/`MultiPolygon`: inside any
member polygon. -/
def zoneContains (z : Zone) (p : Pt) : Bool :=
  z.any (fun ring => pointInRing p ring)

/-- `pathIntersectsZone` from `src/pathfinding.js` lines 3-17: a path hits a
zone if its line has a boundary intersection away from every path vertex
(1e-9 tolerance), or some path vertex lies inside the polygon. -/
def pathIntersectsZone (path : List Pt) (z : Zone) : Bool :=
  let ints := (ringEdges path).flatMap
    (fun e => z.flatMap (fun ring => segRingIntersections e.1 e.2 ring))
  let filtered := ints.filter (fun c =>
    ! path.any (fun p => decide (|p.1 - c.1| < 1/1000000000 ∧ |p.2 - c.2| < 1/1000000000)))
  if 0 < filtered.length then true
  else path.any (fun c => zoneContains z c)

/-- Distance-squared from a point to a closed segment. -/
def distSqToSeg (p a b : Pt) : ℚ :=
  let dx := b.1 - a.1
  let dy := b.2 - a.2
  let len2 := dx * dx + dy * dy
  if len2 = 0 then distSq p a
  else
    let t0 := ((p.1 - a.1) * dx + (p.2 - a.2) * dy) / len2
    let t := if t0 < 0 then 0 else if 1 < t0 then 1 else t0
    distSq p (a.1 + t * dx, a.2 + t * dy)

/-- Index of the first strict minimum in a distance list (turf's
`nearestPointOnLine` keeps the first strict improvement while scanning). -/
def idxOfMinAux : List ℚ → Nat → ℚ → Nat → Nat
  | [], _, _, best => best
  | d :: rest, i, bestD, best =>
    if d < bestD then idxOfMinAux rest (i + 1) d i
    else idxOfMinAux rest (i + 1) bestD best

/-- `findSegmentIndex` from `src/pathfinding.js` lines 19-21: the ring-edge
index of the boundary segment nearest to `p`. -/
def findSegmentIndex (ring : Ring) (p : Pt) : Nat :=
  match (ringEdges ring).map (fun e => distSqToSeg p e.1 e.2) with
  | [] => 0
  | d :: rest => idxOfMinAux rest 1 d 0

/-- The loop body of `buildPath` (`src/pathfinding.js` lines 23-32), with
fuel: the JS `while (idx !== endIdx)` loop terminates within `ring.length`
steps whenever `endIdx` is a valid edge index, which is the only way the
planner calls it; the fuel makes that explicit. -/
def buildPathGo (ring : Ring) (len dir : Int) (endIdx : Nat) : Nat → Nat → List Pt
  | _, 0 => []
  | idx, fuel + 1 =>
    if idx = endIdx then []
    else
      let idx2 := (((idx : Int) + dir + len) % len).toNat
      ring.getD idx2 dflPt :: buildPathGo ring len dir endIdx idx2 fuel

/-- `buildPath`: walk the ring from `startIdx` to `endIdx` in direction
`dir`, collecting the vertices entered (the vertex at `endIdx` included). -/
def buildPath (ring : Ring) (startIdx endIdx : Nat) (dir : Int) : List Pt :=
  buildPathGo ring ((ring.length : Int) - 1) dir endIdx startIdx ring.length

/-- Model of turf's `centroid` on a polygon: the mean of the ring's
coordinates excluding the closing wrap coordinate (turf's `coordEach`
iterates with `excludeWrapCoord` set, skipping each ring's last
position). -/
def centroidOf (ring : Ring) : Pt :=
  ((ring.dropLast.map Prod.fst).sum / (ring.dropLast.length : ℚ),
   (ring.dropLast.map Prod.snd).sum / (ring.dropLast.length : ℚ))

/-- The `nudge` closure of `calculateAvoidingPath` (lines 46-52): push a
point `1e-6` away from the polygon centroid; a zero direction vector gets
unit length via JS `|| 1`. -/
def nudge (center p : Pt) : Pt :=
  let dx := p.1 - center.1
  let dy := p.2 - center.2
  let len0 := ratSqrt (dx * dx + dy * dy)
  let len := if len0 = 0 then 1 else len0
  (p.1 + dx / len * (1 / 1000000), p.2 + dy / len * (1 / 1000000))

/-- Path length used only to compare the two candidate detours (turf
`length`), modelled as the sum of `ratSqrt` segment lengths. -/
def pathLenApprox (pts : List Pt) : ℚ :=
  ((ringEdges pts).map (fun e => ratSqrt (distSq e.1 e.2))).sum

/-- Lines 65-73: build both ring walks between the entry and exit points,
nudge every vertex outward, and take the shorter. -/
def detourFor (ring : Ring) (center p1 p2 : Pt) : List Pt :=
  let sIdx := findSegmentIndex ring p1
  let eIdx := findSegmentIndex ring p2
  let cw := (p1 :: (buildPath ring sIdx eIdx 1 ++ [p2])).map (nudge center)
  let ccw := (p1 :: (buildPath ring sIdx eIdx (-1) ++ [p2])).map (nudge center)
  if pathLenApprox cw < pathLenApprox ccw then cw else ccw

/-- `path.splice(i + 1, 1, ...detour, b)`: drop the element at `i+1` and
insert the detour followed by `b`. -/
def splicePath (path : List Pt) (i : Nat) (detour : List Pt) (b : Pt) : List Pt :=
  path.take (i + 1) ++ detour ++ [b] ++ path.drop (i + 2)

/-- The list of points turf's `lineIntersect` step of lines 59-62 leaves
for segment `[a,b]`: boundary intersections, with `a` unshifted when it is
inside the polygon and `b` pushed when it is. -/
def segmentHits (ring : Ring) (a b : Pt) : List Pt :=
  let ints0 := segRingIntersections a b ring
  let ints1 := if pointInRing a ring then a :: ints0 else ints0
  if pointInRing b ring then ints1 ++ [b] else ints1

/-- The inner `while (i < path.length - 1)` segment-splitting loop of
`calculateAvoidingPath` (lines 54-80) for one polygon, with fuel: `none`
means the JS loop has not terminated within `fuel` iterations. -/
def innerLoop (ring : Ring) : Nat → Nat → List Pt → Bool → Option (List Pt × Bool)
  | 0, i, path, changed =>
    if i + 1 < path.length then none else some (path, changed)
  | fuel + 1, i, path, changed =>
    if i + 1 < path.length then
      let b := path.getD (i + 1) dflPt
      let ints := segmentHits ring (path.getD i dflPt) b
      if 2 ≤ ints.length then
        let d := detourFor ring (centroidOf ring) (ints.headD dflPt) (ints.getLastD dflPt)
        innerLoop ring fuel (i + d.length) (splicePath path i d b) true
      else innerLoop ring fuel (i + 1) path changed
    else some (path, changed)

/-- One full pass of `zones.forEach(... flattenEach ...)` (lines 42-82):
run the segment-splitting loop for every flattened polygon in order,
threading the path and the `changed` flag. -/
def passPolys (polys : List Ring) (fuel : Nat) (path : List Pt) (changed : Bool) :
    Option (List Pt × Bool) :=
  match polys with
  | [] => some (path, changed)
  | r :: rs =>
    match innerLoop r fuel 0 path changed with
    | none => none
    | some (p, c) => passPolys rs fuel p c

/-- The outer `while (iter < maxIterations)` loop (lines 39-86): run passes
until a pass makes no change or the iteration budget is exhausted. -/
def outerLoop (polys : List Ring) (budget fuel : Nat) (path : List Pt) :
    Option (List Pt) :=
  match budget with
  | 0 => some path
  | b + 1 =>
    match passPolys polys fuel path false with
    | none => none
    | some (p, changed) => if changed then outerLoop polys b fuel p else some p

/-- The record returned by `calculateAvoidingPath` (line 89). -/
structure AvoidResult where
  path : List Pt
  intersected : List Zone
  explored : List Pt
deriving DecidableEq

/-- `calculateAvoidingPath` with the `maxIterations` constant generalised
to a parameter (the source fixes it to `5` on line 36); `fuel` bounds the
inner segment-splitting loop, whose JS original has no bound at all. -/
def calculateAvoidingPathWith (maxIterations fuel : Nat) (start dest : Pt)
    (zones : List Zone) : Option AvoidResult :=
  (outerLoop (zones.flatMap (fun z => z)) maxIterations fuel [start, dest]).map
    (fun p => ⟨p, zones.filter (fun z => pathIntersectsZone p z), []⟩)

/-- `calculateAvoidingPath` from `src/pathfinding.js` lines 34-90, with the
source's `maxIterations = 5`. -/
def calculateAvoidingPath (fuel : Nat) (start dest : Pt) (zones : List Zone) :
    Option AvoidResult :=
  calculateAvoidingPathWith 5 fuel start dest zones

/-- A zone misses the segment `[s,d]` outright: no boundary intersection
points at all and neither endpoint inside any member polygon. -/
def zoneMissesSegment (s d : Pt) (z : Zone) : Bool :=
  z.all (fun r => decide (segRingIntersections s d r = [])) &&
    !(zoneContains z s) && !(zoneContains z d)

/-- C6: with an iteration budget of 0 the outer loop body never runs, so the
planner returns the untouched straight path `[start, dest]`, for every
start, destination, zone geometry and inner fuel. -/
theorem budget_zero_returns_straight_path (fuel : Nat) (start dest : Pt)
    (zones : List Zone) :
    (calculateAvoidingPathWith 0 fuel start dest zones).map AvoidResult.path =
      some [start, dest] := by
  rfl

/-- The structural path invariant: start first, destination last, at least
two points. -/
def PathOK (s d : Pt) (path : List Pt) : Prop :=
  path.head? = some s ∧ path.getLast? = some d ∧ 2 ≤ path.length

theorem length_splicePath {path : List Pt} {i : Nat} (det : List Pt) (b : Pt)
    (hi : i + 1 < path.length) :
    (splicePath path i det b).length = path.length + det.length := by
  simp only [splicePath, List.length_append, List.length_take, List.length_drop,
    List.length_cons, List.length_nil]
  omega

theorem splicePath_pathOK {s d : Pt} {path : List Pt} {i : Nat} {det : List Pt}
    {b : Pt} (hok : PathOK s d path) (hi : i + 1 < path.length)
    (hb : b = path.getD (i + 1) dflPt) :
    PathOK s d (splicePath path i det b) := by
  obtain ⟨h1, h2, h3⟩ := hok
  refine ⟨?_, ?_, ?_⟩
  · cases path with
    | nil => simp at hi
    | cons x xs =>
      simp only [splicePath, List.take_succ_cons, List.cons_append, List.head?_cons]
      simpa using h1
  · by_cases hd : path.drop (i + 2) = []
    · have hlen : path.length = i + 2 := by
        have hld := List.length_drop (i + 2) path
        rw [hd] at hld
        simp at hld
        omega
      have hbl : path.getLast? = some b := by
        have hix : path.length - 1 = i + 1 := by omega
        rw [List.getLast?_eq_getElem?, hix, hb, List.getD_eq_getElem?_getD,
          List.getElem?_eq_getElem hi]
        rfl
      have hbd : b = d := by
        rw [hbl] at h2
        exact Option.some.inj h2
      rw [splicePath, hd, List.append_nil,
        show path.take (i + 1) ++ det ++ [b] = (path.take (i + 1) ++ det) ++ [b] by
          simp [List.append_assoc]]
      rw [List.getLast?_append_of_ne_nil _ (by simp)]
      simp [hbd]
    · have e1 : (splicePath path i det b).getLast? = (path.drop (i + 2)).getLast? := by
        rw [splicePath,
          show path.take (i + 1) ++ det ++ [b] ++ path.drop (i + 2) =
            (path.take (i + 1) ++ det ++ [b]) ++ path.drop (i + 2) by
              simp [List.append_assoc]]
        exact List.getLast?_append_of_ne_nil _ hd
      have e2 : path.getLast? = (path.drop (i + 2)).getLast? := by
        conv_lhs => rw [← List.take_append_drop (i + 2) path]
        exact List.getLast?_append_of_ne_nil _ hd
      rw [e1, ← e2]
      exact h2
  · rw [length_splicePath det b hi]
    omega

theorem innerLoop_done {ring : Ring} {fuel i : Nat} {path : List Pt} {ch : Bool}
    (h : ¬ i + 1 < path.length) :
    innerLoop ring fuel i path ch = some (path, ch) := by
  cases fuel <;> rw [innerLoop] <;> rw [if_neg h]

theorem innerLoop_pathOK {s d : Pt} (ring : Ring) :
    ∀ (fuel i : Nat) (path : List Pt) (ch : Bool) (p : List Pt) (c : Bool),
      innerLoop ring fuel i path ch = some (p, c) → PathOK s d path →
        PathOK s d p := by
  intro fuel
  induction fuel with
  | zero =>
    intro i path ch p c h hok
    rw [innerLoop] at h
    by_cases hlt : i + 1 < path.length
    · rw [if_pos hlt] at h
      exact absurd h (by simp)
    · rw [if_neg hlt] at h
      simp only [Option.some.injEq, Prod.mk.injEq] at h
      obtain ⟨rfl, rfl⟩ := h
      exact hok
  | succ fuel ih =>
    intro i path ch p c h hok
    rw [innerLoop] at h
    by_cases hlt : i + 1 < path.length
    · rw [if_pos hlt] at h
      simp only at h
      by_cases hsplit : 2 ≤ (segmentHits ring (path.getD i dflPt) (path.getD (i + 1) dflPt)).length
      · rw [if_pos hsplit] at h
        exact ih _ _ _ _ _ h (splicePath_pathOK hok hlt rfl)
      · rw [if_neg hsplit] at h
        exact ih _ _ _ _ _ h hok
    · rw [if_neg hlt] at h
      simp only [Option.some.injEq, Prod.mk.injEq] at h
      obtain ⟨rfl, rfl⟩ := h
      exact hok

theorem passPolys_pathOK {s d : Pt} :
    ∀ (polys : List Ring) (fuel : Nat) (path : List Pt) (ch : Bool)
      (p : List Pt) (c : Bool),
      passPolys polys fuel path ch = some (p, c) → PathOK s d path →
        PathOK s d p := by
  intro polys
  induction polys with
  | nil =>
    intro fuel path ch p c h hok
    rw [passPolys] at h
    simp only [Option.some.injEq, Prod.mk.injEq] at h
    obtain ⟨rfl, rfl⟩ := h
    exact hok
  | cons r rs ih =>
    intro fuel path ch p c h hok
    rw [passPolys] at h
    cases hinner : innerLoop r fuel 0 path ch with
    | none => rw [hinner] at h; exact absurd h (by simp)
    | some pc =>
      rw [hinner] at h
      obtain ⟨q, e⟩ := pc
      exact ih _ _ _ _ _ h (innerLoop_pathOK r _ _ _ _ _ _ hinner hok)

theorem outerLoop_pathOK {s d : Pt} (polys : List Ring) :
    ∀ (budget fuel : Nat) (path : List Pt) (p : List Pt),
      outerLoop polys budget fuel path = some p → PathOK s d path →
        PathOK s d p := by
  intro budget
  induction budget with
  | zero =>
    intro fuel path p h hok
    rw [outerLoop] at h
    rw [← Option.some.inj h]
    exact hok
  | succ b ih =>
    intro fuel path p h hok
    rw [outerLoop] at h
    cases hpass : passPolys polys fuel path false with
    | none => rw [hpass] at h; exact absurd h (by simp)
    | some pc =>
      obtain ⟨q, c⟩ := pc
      rw [hpass] at h
      dsimp only at h
      have hok' : PathOK s d q := passPolys_pathOK polys fuel path false q c hpass hok
      cases c with
      | true =>
        rw [if_pos rfl] at h
        exact ih _ _ _ h hok'
      | false =>
        rw [if_neg (by simp)] at h
        rw [← Option.some.inj h]
        exact hok'

/-- C4: every path returned by `calculateAvoidingPath` starts with `start`,
ends with `dest` and has at least two points — the detour splice
`path.splice(i+1, 1, ...detour, b)` preserves all three, whatever the
detour. -/
theorem avoiding_path_endpoints_invariant (fuel : Nat) (start dest : Pt)
    (zones : List Zone) (r : AvoidResult)
    (h : calculateAvoidingPath fuel start dest zones = some r) :
    r.path.head? = some start ∧ r.path.getLast? = some dest ∧ 2 ≤ r.path.length := by
  unfold calculateAvoidingPath calculateAvoidingPathWith at h
  cases houter : outerLoop (zones.flatMap (fun z => z)) 5 fuel [start, dest] with
  | none => rw [houter] at h; exact absurd h (by simp)
  | some p =>
    rw [houter] at h
    simp only [Option.map_some'] at h
    have hok : PathOK start dest p :=
      outerLoop_pathOK _ _ _ _ _ houter ⟨rfl, rfl, by simp⟩
    rw [← Option.some.inj h]
    exact hok

theorem zoneMiss_facts {s d : Pt} {z : Zone} (h : zoneMissesSegment s d z = true) :
    (∀ r ∈ z, segRingIntersections s d r = []) ∧
      (∀ r ∈ z, pointInRing s r = false) ∧ (∀ r ∈ z, pointInRing d r = false) := by
  simp only [zoneMissesSegment, Bool.and_eq_true, List.all_eq_true, decide_eq_true_eq,
    Bool.not_eq_true', zoneContains, List.any_eq_false, Bool.not_eq_true] at h
  exact ⟨h.1.1, h.1.2, h.2⟩

theorem segmentHits_nil {ring : Ring} {s d : Pt}
    (hi : segRingIntersections s d ring = [])
    (ha : pointInRing s ring = false) (hb : pointInRing d ring = false) :
    segmentHits ring s d = [] := by
  simp [segmentHits, hi, ha, hb]

theorem innerLoop_miss {ring : Ring} {s d : Pt} {fuel : Nat} {ch : Bool}
    (hi : segRingIntersections s d ring = [])
    (ha : pointInRing s ring = false) (hb : pointInRing d ring = false) :
    innerLoop ring (fuel + 1) 0 [s, d] ch = some ([s, d], ch) := by
  rw [innerLoop]
  rw [if_pos (by simp)]
  simp only [List.getD_cons_zero, List.getD_cons_succ]
  rw [segmentHits_nil hi ha hb]
  rw [if_neg (by simp)]
  exact innerLoop_done (by simp)

theorem passPolys_miss {s d : Pt} {polys : List Ring} {fuel : Nat} {ch : Bool}
    (h : ∀ r ∈ polys, segRingIntersections s d r = [] ∧
      pointInRing s r = false ∧ pointInRing d r = false) :
    passPolys polys (fuel + 1) [s, d] ch = some ([s, d], ch) := by
  induction polys with
  | nil => rfl
  | cons r rs ih =>
    rw [passPolys]
    obtain ⟨h1, h2, h3⟩ := h r (by simp)
    rw [innerLoop_miss h1 h2 h3]
    exact ih (fun q hq => h q (List.mem_cons_of_mem r hq))

theorem outerLoop_step (polys : List Ring) (b fuel : Nat) (path : List Pt) :
    outerLoop polys (b + 1) fuel path =
      match passPolys polys fuel path false with
      | none => none
      | some (p, changed) => if changed then outerLoop polys b fuel p else some p := rfl

theorem pathIntersectsZone_miss {s d : Pt} {z : Zone}
    (h : zoneMissesSegment s d z = true) :
    pathIntersectsZone [s, d] z = false := by
  obtain ⟨h1, h2, h3⟩ := zoneMiss_facts h
  have hflat : z.flatMap (fun ring => segRingIntersections s d ring) = [] := by
    rw [List.flatMap_eq_nil_iff]
    exact h1
  simp only [pathIntersectsZone, ringEdges, List.zip, List.tail, List.zipWith, hflat]
  simp only [List.flatMap_nil, List.flatMap_cons, List.append_nil, hflat,
    List.filter_nil, List.length_nil, lt_irrefl, if_false]
  simp only [List.any_cons, List.any_nil, Bool.or_false]
  simp only [zoneContains, Bool.or_eq_false_iff, List.any_eq_false, Bool.not_eq_true]
  exact ⟨fun r hr => h2 r hr, fun r hr => h3 r hr⟩

/-- C1: when every zone in the list misses the direct segment outright (no
boundary intersection points, neither endpoint inside), the planner returns
exactly `[start, dest]` with an empty `intersected` list. -/
theorem no_zone_hit_returns_direct_path (fuel : Nat) (start dest : Pt)
    (zones : List Zone)
    (hmiss : ∀ z ∈ zones, zoneMissesSegment start dest z = true) :
    calculateAvoidingPath (fuel + 1) start dest zones = some ⟨[start, dest], [], []⟩ := by
  have hrings : ∀ r ∈ zones.flatMap (fun z => z),
      segRingIntersections start dest r = [] ∧
        pointInRing start r = false ∧ pointInRing dest r = false := by
    intro r hr
    rw [List.mem_flatMap] at hr
    obtain ⟨z, hz, hrz⟩ := hr
    obtain ⟨h1, h2, h3⟩ := zoneMiss_facts (hmiss z hz)
    exact ⟨h1 r hrz, h2 r hrz, h3 r hrz⟩
  unfold calculateAvoidingPath calculateAvoidingPathWith
  rw [outerLoop_step]
  rw [passPolys_miss hrings]
  dsimp only
  rw [if_neg (by simp)]
  simp only [Option.map_some']
  have hfilter : zones.filter (fun z => pathIntersectsZone [start, dest] z) = [] := by
    rw [List.filter_eq_nil_iff]
    intro z hz
    rw [pathIntersectsZone_miss (hmiss z hz)]
    simp
  rw [hfilter]

/-- Witness for C1 at a concrete input: a segment far away from a square
zone. -/
theorem no_zone_hit_returns_direct_path_witness :
    (∀ z ∈ ([[[((0 : ℚ), (0 : ℚ)), (2, 0), (2, 2), (0, 2), (0, 0)]]] : List Zone),
      zoneMissesSegment (30, 30) (31, 30) z = true) ∧
    calculateAvoidingPath 1 ((30 : ℚ), (30 : ℚ)) ((31 : ℚ), (30 : ℚ))
      [[[((0 : ℚ), (0 : ℚ)), (2, 0), (2, 2), (0, 2), (0, 0)]]] =
      some ⟨[(30, 30), (31, 30)], [], []⟩ := by
  have hm : ∀ z ∈ ([[[((0 : ℚ), (0 : ℚ)), (2, 0), (2, 2), (0, 2), (0, 0)]]] : List Zone),
      zoneMissesSegment (30, 30) (31, 30) z = true := by
    intro z hz
    simp only [List.mem_singleton] at hz
    subst hz
    simp only [zoneMissesSegment, zoneContains, List.all_cons, List.all_nil,
      List.any_cons, List.any_nil, Bool.and_true, Bool.or_false]
    norm_num [segRingIntersections, segIntersection, ringEdges, List.zip, List.tail,
      List.zipWith, List.filterMap, pointInRing, onSeg, cross, List.countP,
      List.countP.go, distSq]
  exact ⟨hm, no_zone_hit_returns_direct_path 0 (30, 30) (31, 30) _ hm⟩

/-- A 20x20 square zone ring. -/
def badRing : Ring := [(0, 0), (20, 0), (20, 20), (0, 20), (0, 0)]

/-- The square as a single-polygon zone. -/
def badZone : Zone := [badRing]

/-- A start point inside the square. -/
def badStart : Pt := (10, 4)

/-- A destination inside the square, equal to the polygon's centroid, so
the planner's `nudge` moves it nowhere. -/
def badDest : Pt := (10, 10)

/-- `nudge` of `badStart` away from the centroid. -/
def badStartNudged : Pt := (10, 4 - 1/1000000)

theorem ratSqrt_zero : ratSqrt 0 = 0 := by
  rw [ratSqrt]
  norm_num [Rat.num_ofNat, Rat.den_ofNat, Int.sqrt]

theorem ratSqrt_thirtysix : ratSqrt 36 = 6 := by
  have h36 : Nat.sqrt 36 = 6 := by simpa using Nat.sqrt_eq 6
  have hi36 : Int.sqrt 36 = 6 := by simp [Int.sqrt, h36]
  rw [ratSqrt]
  rw [show ((36 : ℚ)).num = 36 from rfl, show ((36 : ℚ)).den = 1 from rfl]
  rw [hi36]
  norm_num

theorem ev_nudge_dest : nudge badDest badDest = badDest := by
  simp only [nudge, badDest]
  norm_num [ratSqrt_zero]

theorem ev_nudge_start : nudge badDest badStart = badStartNudged := by
  simp only [nudge, badStart, badDest, badStartNudged]
  norm_num [show ((10 : ℚ) - 10) * (10 - 10) + (4 - 10) * (4 - 10) = 36 by norm_num,
    ratSqrt_thirtysix]

theorem ev_centroid : centroidOf badRing = badDest := by
  simp only [centroidOf, badRing, badDest, List.dropLast, List.map_cons, List.map_nil,
    List.sum_cons, List.sum_nil, List.length_cons, List.length_nil]
  norm_num

theorem ev_in_start : pointInRing badStart badRing = true := by
  simp only [pointInRing, badStart, badRing, ringEdges, List.zip, List.tail,
    List.zipWith, List.any_cons, List.any_nil, onSeg, cross]
  norm_num [List.countP_cons, List.countP_nil]

theorem ev_in_dest : pointInRing badDest badRing = true := by
  simp only [pointInRing, badDest, badRing, ringEdges, List.zip, List.tail,
    List.zipWith, List.any_cons, List.any_nil, onSeg, cross]
  norm_num [List.countP_cons, List.countP_nil]

theorem ev_ints_sd : segRingIntersections badStart badDest badRing = [] := by
  simp only [segRingIntersections, badStart, badDest, badRing, ringEdges, List.zip,
    List.tail, List.zipWith, List.filterMap_cons, List.filterMap_nil, segIntersection]
  norm_num

theorem ev_ints_dd : segRingIntersections badDest badDest badRing = [] := by
  simp only [segRingIntersections, badDest, badRing, ringEdges, List.zip,
    List.tail, List.zipWith, List.filterMap_cons, List.filterMap_nil, segIntersection]
  norm_num

theorem ev_hits_sd : segmentHits badRing badStart badDest = [badStart, badDest] := by
  rw [segmentHits, ev_ints_sd, ev_in_start, ev_in_dest]
  rfl

theorem ev_hits_dd : segmentHits badRing badDest badDest = [badDest, badDest] := by
  rw [segmentHits, ev_ints_dd, ev_in_dest]
  rfl

theorem ev_idx_start : findSegmentIndex badRing badStart = 0 := by
  simp only [findSegmentIndex, badStart, badRing, ringEdges, List.zip, List.tail,
    List.zipWith, List.map_cons, List.map_nil, distSqToSeg, distSq]
  norm_num [idxOfMinAux]

theorem ev_idx_dest : findSegmentIndex badRing badDest = 0 := by
  simp only [findSegmentIndex, badDest, badRing, ringEdges, List.zip, List.tail,
    List.zipWith, List.map_cons, List.map_nil, distSqToSeg, distSq]
  norm_num [idxOfMinAux]

theorem ev_buildPath_z (dir : Int) : buildPath badRing 0 0 dir = [] := by
  simp only [buildPath, badRing, List.length_cons, List.length_nil]
  rw [buildPathGo.eq_def]
  simp

theorem ev_detour_first :
    detourFor badRing badDest badStart badDest = [badStartNudged, badDest] := by
  rw [detourFor, ev_idx_start, ev_idx_dest, ev_buildPath_z, ev_buildPath_z]
  simp only [List.nil_append, List.map_cons, List.map_nil]
  rw [ev_nudge_start, ev_nudge_dest]
  rw [if_neg (lt_irrefl _)]

theorem ev_detour_dd :
    detourFor badRing badDest badDest badDest = [badDest, badDest] := by
  rw [detourFor, ev_idx_dest, ev_buildPath_z, ev_buildPath_z]
  simp only [List.nil_append, List.map_cons, List.map_nil]
  rw [ev_nudge_dest]
  rw [if_neg (lt_irrefl _)]

/-- The state the inner splitting loop keeps reproducing on the bad input:
the cursor sits on a degenerate `[badDest, badDest]` segment at the end of
the path. -/
def InvD (path : List Pt) (i : Nat) : Prop :=
  path.length = i + 2 ∧ 1 ≤ i ∧
    path.getD i dflPt = badDest ∧ path.getD (i + 1) dflPt = badDest

theorem repeat_step {fuel i : Nat} {path : List Pt} {ch : Bool} (h : InvD path i) :
    innerLoop badRing (fuel + 1) i path ch =
      innerLoop badRing fuel (i + 2) (splicePath path i [badDest, badDest] badDest) true := by
  obtain ⟨hlen, hi1, hgi, hgi1⟩ := h
  rw [innerLoop]
  rw [if_pos (by omega)]
  simp only [hgi, hgi1, ev_hits_dd]
  rw [if_pos (by simp)]
  simp only [List.headD_cons, ev_centroid]
  rw [show ([badDest, badDest].getLastD dflPt) = badDest from rfl, ev_detour_dd]
  simp only [List.length_cons, List.length_nil]

theorem repeat_step_inv {i : Nat} {path : List Pt} (h : InvD path i) :
    InvD (splicePath path i [badDest, badDest] badDest) (i + 2) := by
  obtain ⟨hlen, hi1, hgi, hgi1⟩ := h
  have hdrop : path.drop (i + 2) = [] := by
    rw [← hlen]
    exact List.drop_length path
  have htk : (path.take (i + 1)).length = i + 1 := by
    rw [List.length_take]
    omega
  refine ⟨?_, by omega, ?_, ?_⟩
  · rw [length_splicePath _ _ (by omega)]
    simp only [List.length_cons, List.length_nil]
    omega
  · rw [splicePath, hdrop, List.append_nil,
      show path.take (i + 1) ++ [badDest, badDest] ++ [badDest] =
        path.take (i + 1) ++ [badDest, badDest, badDest] by simp]
    rw [List.getD_append_right _ _ _ _ (by omega), htk]
    rw [show i + 2 - (i + 1) = 1 by omega]
    rfl
  · rw [splicePath, hdrop, List.append_nil,
      show path.take (i + 1) ++ [badDest, badDest] ++ [badDest] =
        path.take (i + 1) ++ [badDest, badDest, badDest] by simp]
    rw [List.getD_append_right _ _ _ _ (by omega), htk]
    rw [show i + 2 + 1 - (i + 1) = 2 by omega]
    rfl

theorem innerLoop_diverges :
    ∀ (fuel : Nat) (path : List Pt) (i : Nat) (ch : Bool),
      InvD path i → innerLoop badRing fuel i path ch = none := by
  intro fuel
  induction fuel with
  | zero =>
    intro path i ch h
    obtain ⟨hlen, _, _, _⟩ := h
    rw [innerLoop]
    rw [if_pos (by omega)]
  | succ f ih =>
    intro path i ch h
    rw [repeat_step h]
    exact ih _ _ _ (repeat_step_inv h)

theorem first_step (fuel : Nat) :
    innerLoop badRing (fuel + 1) 0 [badStart, badDest] false =
      innerLoop badRing fuel 2 [badStart, badStartNudged, badDest, badDest] true := by
  rw [innerLoop]
  rw [if_pos (by simp)]
  simp only [List.getD_cons_zero, List.getD_cons_succ, ev_hits_sd]
  rw [if_pos (by simp)]
  simp only [List.headD_cons, ev_centroid]
  rw [show ([badStart, badDest].getLastD dflPt) = badDest from rfl, ev_detour_first]
  simp only [List.length_cons, List.length_nil]
  rfl

theorem inv_first : InvD [badStart, badStartNudged, badDest, badDest] 2 :=
  ⟨rfl, by omega, rfl, rfl⟩

/-- C5 fails on the code: with the destination placed at the polygon's
centroid (so `nudge` is the identity there) and strictly inside the zone,
every detour splice recreates a degenerate trailing segment
`[dest, dest]` whose two endpoint-in-polygon hits trigger another splice;
the inner segment-splitting loop never terminates, for any fuel, so the
planner diverges before the outer 5-pass bound is ever consulted. -/
theorem avoiding_path_diverges_inside_zone (fuel : Nat) :
    calculateAvoidingPath fuel badStart badDest [badZone] = none := by
  unfold calculateAvoidingPath calculateAvoidingPathWith
  have hpolys : (([badZone] : List Zone).flatMap (fun z => z)) = [badRing] := rfl
  rw [hpolys]
  have hinner : innerLoop badRing fuel 0 [badStart, badDest] false = none := by
    cases fuel with
    | zero =>
      rw [innerLoop]
      rw [if_pos (by simp)]
    | succ f =>
      rw [first_step]
      exact innerLoop_diverges f _ 2 true inv_first
  rw [outerLoop_step]
  rw [passPolys, hinner]
  rfl

/-!
Part B: the zone-activity classifier of `src/unnamed/part_004`
(`parseDateSafe`, `isZoneActive` and its nested `checkWindow`).

JS dynamic values are modelled by small inductive types:
* a date-valued property is `JsDate`: absent/null (`undef`), a number
  (`num`), a non-empty string that `new Date` parses (`strOk` with the
  parsed timestamp), or an empty/unparsable string (`strBad`) — `new Date`
  itself is the JS runtime, so only its outcome is carried;
* a `permanent` flag is `JsPerm` (absent, boolean, or string);
* `activationSources` is `JsSources` (absent/null, a raw string to be
  `JSON.parse`d, or an already-parsed object).  `JSON.parse` is likewise
  the JS runtime, so `isZoneActive` takes the parser as an explicit
  function argument `jsonParse`; a `none` result models a thrown
  `SyntaxError`, which the source catches.
Fields carrying a value of an unexpected runtime type behave like absent
ones exactly where the source guards with `typeof`, so they are folded
into the absent constructors.
-/

/-- A date-valued JS property and what `new Date` would make of it. -/
inductive JsDate where
  | undef : JsDate
  | num : Int → JsDate
  | strOk : Int → JsDate
  | strBad : JsDate
deriving DecidableEq

/-- `parseDateSafe` from `src/unnamed/part_004` lines 87-91: falsy values
(absent, null, the number 0, the empty string) give `null`; otherwise the
parsed epoch milliseconds, or `null` when `new Date` yields `NaN`. -/
def parseDateSafe : JsDate → Option Int
  | .undef => none
  | .num n => if n = 0 then none else some n
  | .strOk t => some t
  | .strBad => none

/-- A `permanent`-flag JS property. -/
inductive JsPerm where
  | undef : JsPerm
  | boolVal : Bool → JsPerm
  | strVal : String → JsPerm
deriving DecidableEq

/-- `permanent === true || permanent === '1'`. -/
def permTruthy : JsPerm → Bool
  | .boolVal true => true
  | .strVal s => s = "1"
  | _ => false

/-- JS truthiness of a `parseDateSafe` result (a number: falsy iff 0). -/
def jsTruthyD (o : Option Int) : Bool :=
  match o with
  | none => false
  | some t => t != 0

/-- The nested `checkWindow(start, end, permanent)` of `isZoneActive`
(lines 107-114): a truthy `permanent` short-circuits to true, a truthy
parsed start bound in the future or end bound in the past gives false,
otherwise the closed-window test with falsy bounds treated as open. -/
def checkWindow (now : Int) (start stop : JsDate) (permanent : JsPerm) : Bool :=
  let s := parseDateSafe start
  let e := parseDateSafe stop
  if permTruthy permanent then true
  else if jsTruthyD s && decide (now < s.getD 0) then false
  else if jsTruthyD e && decide (e.getD 0 < now) then false
  else (!jsTruthyD s || decide (s.getD 0 ≤ now)) && (!jsTruthyD e || decide (now ≤ e.getD 0))

/-- `sources.Specific?.properties` fields. -/
structure SpecificProps where
  startTime : JsDate
  endTime : JsDate

/-- `sources.General?.properties` fields. -/
structure GeneralProps where
  startDateTime : JsDate
  endDateTime : JsDate
  permanent : JsPerm

/-- `sources.Condition?.properties` fields. -/
structure CondProps where
  activationdate : JsDate

/-- A parsed `activationSources` object with its up-to-three records; an
absent member models a missing key or missing `.properties` (the source
falls back to `{}` via `?.properties || {}`). -/
structure SourcesObj where
  specific : Option SpecificProps
  general : Option GeneralProps
  condition : Option CondProps

/-- Lines 133-143: the OR over the three activation sources. -/
def sourcesSayActive (now : Int) (o : SourcesObj) : Bool :=
  let sp := o.specific.getD ⟨.undef, .undef⟩
  if checkWindow now sp.startTime sp.endTime .undef then true
  else
    let g := o.general.getD ⟨.undef, .undef, .undef⟩
    if checkWindow now g.startDateTime g.endDateTime g.permanent then true
    else
      let c := o.condition.getD ⟨.undef⟩
      let activation := parseDateSafe c.activationdate
      if !jsTruthyD activation || decide (activation.getD 0 ≤ now) then true
      else false

/-- The `activationSources` property. -/
inductive JsSources where
  | undef : JsSources
  | strVal : String → JsSources
  | objVal : SourcesObj → JsSources

/-- The property bag consumed by `isZoneActive`.  `permanent` is carried to
state theorems about it even though the function never reads it. -/
structure ZoneProps where
  activationStatus : Option String
  active : Option Bool
  status : Option String
  startTime : JsDate
  endTime : JsDate
  permanent : JsPerm
  activationSources : JsSources

/-- ASCII model of `String.prototype.toLowerCase`. -/
def jsCharToLower (c : Char) : Char :=
  if 'A' ≤ c && c ≤ 'Z' then Char.ofNat (c.toNat + 32) else c

/-- ASCII model of `String.prototype.toLowerCase` over the code points. -/
def jsToLowerCase (s : String) : String :=
  .mk (s.data.map jsCharToLower)

/-- Whitespace for the model of `String.prototype.trim`. -/
def jsWhitespace (c : Char) : Bool :=
  c = ' ' || c = '\t' || c = '\n' || c = '\r'

/-- Model of `String.prototype.trim`. -/
def jsTrim (s : String) : String :=
  .mk (((s.data.dropWhile jsWhitespace).reverse.dropWhile jsWhitespace).reverse)

/-- Lines 121-143 of `isZoneActive`: the `activationSources` rule.  A falsy
raw value (absent, null, empty string) defaults to active; a string is
`JSON.parse`d, a thrown parse error (modelled by `jsonParse s = none`) is
caught and defaults to active; otherwise the three-source OR decides. -/
def isZoneActiveFromSources (jsonParse : String → Option SourcesObj)
    (p : ZoneProps) (now : Int) : Bool :=
  match p.activationSources with
  | .undef => true
  | .strVal s =>
    if s = "" then true
    else
      match jsonParse s with
      | none => true
      | some o => sourcesSayActive now o
  | .objVal o => sourcesSayActive now o

/-- Lines 116-119: the `status === 'recurring'` rule (case-insensitive, no
trim); note the source calls `checkWindow(props.startTime, props.endTime)`
with no third argument, so `permanent` is `undefined` there. -/
def isZoneActiveAfterActive (jsonParse : String → Option SourcesObj)
    (p : ZoneProps) (now : Int) : Bool :=
  match p.status with
  | some st =>
    if jsToLowerCase st = "recurring" then checkWindow now p.startTime p.endTime .undef
    else isZoneActiveFromSources jsonParse p now
  | none => isZoneActiveFromSources jsonParse p now

/-- Lines 103-105: an explicit boolean `active` is returned directly. -/
def isZoneActiveAfterStatus (jsonParse : String → Option SourcesObj)
    (p : ZoneProps) (now : Int) : Bool :=
  match p.active with
  | some b => b
  | none => isZoneActiveAfterActive jsonParse p now

/-- `isZoneActive(props, now)` from `src/unnamed/part_004` lines 93-144,
with the external `JSON.parse` passed in as `jsonParse`. -/
def isZoneActive (jsonParse : String → Option SourcesObj)
    (props : Option ZoneProps) (now : Int) : Bool :=
  match props with
  | none => false
  | some p =>
    match p.activationStatus with
    | some s =>
      let normalized := jsToLowerCase (jsTrim s)
      if normalized = "inactive" then false
      else if normalized = "soon" then true
      else isZoneActiveAfterStatus jsonParse p now
    | none => isZoneActiveAfterStatus jsonParse p now

/-- C7: an `activationStatus` of `"inactive"` forces `isZoneActive` to
false and `"soon"` forces it to true, whatever every other field, the
clock, and the JSON parser say. -/
theorem activation_status_overrides (jsonParse : String → Option SourcesObj)
    (p : ZoneProps) (now : Int) :
    (p.activationStatus = some "inactive" → isZoneActive jsonParse (some p) now = false) ∧
    (p.activationStatus = some "soon" → isZoneActive jsonParse (some p) now = true) := by
  constructor <;> intro h <;> rw [isZoneActive, h] <;> rfl

/-- Witness for C7: records whose other fields all argue the opposite. -/
theorem activation_status_overrides_witness :
    isZoneActive (fun _ => none)
      (some ⟨some "inactive", some true, none, .num 1, .num 9999999999, .boolVal true, .undef⟩)
      5 = false ∧
    isZoneActive (fun _ => none)
      (some ⟨some "soon", some false, none, .undef, .undef, .undef, .undef⟩) 5 = true :=
  ⟨(activation_status_overrides (fun _ => none) _ 5).1 rfl,
   (activation_status_overrides (fun _ => none) _ 5).2 rfl⟩

/-- C8 counterexample: a recurring zone whose window has closed but whose
`permanent` flag is `true` is reported inactive — the recurring branch
calls `checkWindow(props.startTime, props.endTime)` without passing the
flag, so it does not short-circuit. -/
theorem recurring_permanent_not_shortcircuited :
    isZoneActive (fun _ => none)
      (some ⟨none, none, some "recurring", .num 1000, .num 2000, .boolVal true, .undef⟩)
      3000 = false := by
  decide

/-- C8 amended: for every record that reaches the recurring rule — the
`activationStatus` absent or a string normalizing to neither `"inactive"`
nor `"soon"`, no boolean `active`, and a `status` that lowercases to
`"recurring"` — `isZoneActive` is exactly the `[startTime, endTime]`
window test with an `undefined` permanent argument; the record's own
`permanent` flag is ignored in this branch (it only matters inside a
`General` activation source). -/
theorem recurring_is_window_only (jsonParse : String → Option SourcesObj)
    (p : ZoneProps) (now : Int) (st : String)
    (h1 : ∀ s, p.activationStatus = some s →
      jsToLowerCase (jsTrim s) ≠ "inactive" ∧ jsToLowerCase (jsTrim s) ≠ "soon")
    (h2 : p.active = none)
    (h3 : p.status = some st) (h4 : jsToLowerCase st = "recurring") :
    isZoneActive jsonParse (some p) now =
      checkWindow now p.startTime p.endTime .undef := by
  have hafter : isZoneActiveAfterStatus jsonParse p now =
      checkWindow now p.startTime p.endTime .undef := by
    rw [isZoneActiveAfterStatus, h2, isZoneActiveAfterActive, h3]
    dsimp only
    rw [h4, if_pos rfl]
  rw [isZoneActive]
  cases hs : p.activationStatus with
  | none => exact hafter
  | some s =>
    dsimp only
    obtain ⟨hni, hns⟩ := h1 s hs
    rw [if_neg hni, if_neg hns]
    exact hafter

/-- Witness for C8's amended statement, on a record carrying the feed's
usual `activationStatus: "active"` string. -/
theorem recurring_is_window_only_witness :
    isZoneActive (fun _ => none)
      (some ⟨some "active", none, some "recurring", .num 1000, .num 2000, .boolVal true, .undef⟩)
      3000 = checkWindow 3000 (.num 1000) (.num 2000) .undef :=
  recurring_is_window_only (fun _ => none)
    ⟨some "active", none, some "recurring", .num 1000, .num 2000, .boolVal true, .undef⟩
    3000 "recurring"
    (fun s hs => by
      simp only [Option.some.injEq] at hs
      subst hs
      exact ⟨by decide, by decide⟩)
    rfl rfl (by decide)

/-- C9: a record that reaches the `activationSources` rule is active when
the property is absent, and active when it is a string the JSON parser
rejects — the parse error is caught and the zone fails open; the embedding
is a total function, so no exception escapes. -/
theorem activation_sources_fail_open (jsonParse : String → Option SourcesObj)
    (p : ZoneProps) (now : Int)
    (h1 : p.activationStatus = none) (h2 : p.active = none)
    (h3 : ∀ st, p.status = some st → ¬ jsToLowerCase st = "recurring") :
    (p.activationSources = .undef → isZoneActive jsonParse (some p) now = true) ∧
    (∀ s, p.activationSources = .strVal s → jsonParse s = none →
      isZoneActive jsonParse (some p) now = true) := by
  have hbase : isZoneActive jsonParse (some p) now =
      isZoneActiveFromSources jsonParse p now := by
    rw [isZoneActive, h1, isZoneActiveAfterStatus, h2, isZoneActiveAfterActive]
    dsimp only
    cases hst : p.status with
    | none => rfl
    | some st =>
      dsimp only
      rw [if_neg (h3 st hst)]
  constructor
  · intro h
    rw [hbase, isZoneActiveFromSources, h]
  · intro s h hparse
    rw [hbase, isZoneActiveFromSources, h]
    dsimp only
    by_cases hs : s = ""
    · rw [if_pos hs]
    · rw [if_neg hs, hparse]

/-- Witness for C9: an all-absent record and one with unparsable JSON. -/
theorem activation_sources_fail_open_witness :
    isZoneActive (fun _ => none)
      (some ⟨none, none, none, .undef, .undef, .undef, .undef⟩) 0 = true ∧
    isZoneActive (fun _ => none)
      (some ⟨none, none, none, .undef, .undef, .undef, .strVal "not json"⟩) 0 = true :=
  ⟨(activation_sources_fail_open (fun _ => none)
      ⟨none, none, none, .undef, .undef, .undef, .undef⟩ 0 rfl rfl
      (fun st hst => by cases hst)).1 rfl,
   (activation_sources_fail_open (fun _ => none)
      ⟨none, none, none, .undef, .undef, .undef, .strVal "not json"⟩ 0 rfl rfl
      (fun st hst => by cases hst)).2 "not json" rfl rfl⟩

/-!
Part C: the flight-feasibility wind and ground-speed calculations of
`src/utils.js`, over the real numbers.

JS numbers are modelled as ideal reals.  The legacy wind-shear functions
apply the JS binary `^` operator, which is bitwise XOR: both operands go
through `ToInt32` (truncate toward zero, wrap into the signed 32-bit
range) and the result is the 32-bit XOR reinterpreted as a signed
integer; `jsTrunc`, `toUInt32`, `fromUInt32` and `jsBitXor` model that
exactly.  Since `*` binds tighter than `^` in JS, the source computes
`ToInt32(speed * ratio) XOR ToInt32(hellman)`.
-/

noncomputable section
open Classical

/-- `cruiseAltitudeInMeters` (utils.js line 9). -/
def cruiseAltitudeInMeters : ℝ := 90

/-- `maxTotalAirspeedInMetersPerSecond` (line 16). -/
def maxTotalAirspeedInMetersPerSecond : ℝ := 13

/-- `nokiaFleetControlGroundSpeedLimitInMetersPerSecond` (line 17). -/
def nokiaFleetControlGroundSpeedLimitInMetersPerSecond : ℝ := 13

/-- `weatherStationAnemometerAltitudeAboveGroundInMeters` (line 26). -/
def weatherStationAnemometerAltitudeAboveGroundInMeters : ℝ := 90

/-- `hellmanExponentOfWindModel` (line 27). -/
def hellmanExponentOfWindModel : ℝ := 0.250

/-- `gustWindSpeedLimitInMetersPerSecond` (line 29). -/
def gustWindSpeedLimitInMetersPerSecond : ℝ := 20

/-- JS `ToInt32` step 1: truncation toward zero. -/
def jsTrunc (x : ℝ) : Int :=
  if 0 ≤ x then ⌊x⌋ else -⌊-x⌋

/-- JS `ToInt32` into an unsigned 32-bit bit pattern. -/
def toUInt32 (x : ℝ) : Nat :=
  ((jsTrunc x) % 4294967296).toNat

/-- Reinterpret a 32-bit pattern as a signed integer. -/
def fromUInt32 (b : Nat) : Int :=
  if b < 2147483648 then (b : Int) else (b : Int) - 4294967296

/-- The JS binary `^` (bitwise XOR) on numbers. -/
def jsBitXor (x y : ℝ) : ℝ :=
  (fromUInt32 (Nat.xor (toUInt32 x) (toUInt32 y)) : ℝ)

/-- `calculateAverageWindSpeedAtDroneCruiseAltitudeInMetersPerSecond`
(utils.js lines 106-110): the JS `^` there is bitwise XOR, and `*` binds
tighter, so this is `ToInt32(avgWindSpeed * ratio) ^ ToInt32(0.25)`. -/
def calculateAverageWindSpeedAtDroneCruiseAltitudeInMetersPerSecond (avgWindSpeed : ℝ) : ℝ :=
  jsBitXor (avgWindSpeed * (cruiseAltitudeInMeters / weatherStationAnemometerAltitudeAboveGroundInMeters))
    hellmanExponentOfWindModel

/-- `calculateMaxWindGustSpeedAtDroneCruiseAltitudeInMetersPerSecond`
(lines 112-116), same XOR shape. -/
def calculateMaxWindGustSpeedAtDroneCruiseAltitudeInMetersPerSecond (maxGustSpeed : ℝ) : ℝ :=
  jsBitXor (maxGustSpeed * (cruiseAltitudeInMeters / weatherStationAnemometerAltitudeAboveGroundInMeters))
    hellmanExponentOfWindModel

/-- Modelled from the spec: the intended power-law wind-shear scaling
`speed_at_cruise = speed_measured * (cruise_height / anemometer_height) ^
hellman_exponent` with real exponentiation (`Math.pow` / `**`), which the
source does not implement (it uses bitwise `^`). -/
def averageWindSpeedAtCruisePowerLaw (speedMeasured : ℝ) : ℝ :=
  speedMeasured *
    (cruiseAltitudeInMeters / weatherStationAnemometerAltitudeAboveGroundInMeters) ^
      hellmanExponentOfWindModel

/-- Modelled from the spec: the power-law gust scaling, as for
`averageWindSpeedAtCruisePowerLaw`. -/
def maxWindGustSpeedAtCruisePowerLaw (gustMeasured : ℝ) : ℝ :=
  gustMeasured *
    (cruiseAltitudeInMeters / weatherStationAnemometerAltitudeAboveGroundInMeters) ^
      hellmanExponentOfWindModel

/-- Degrees to radians. -/
def toRadiansDeg (deg : ℝ) : ℝ := deg * Real.pi / 180

/-- `Math.atan2` with its standard quadrant conventions (`atan2(0,0) = 0`). -/
def jsAtan2 (y x : ℝ) : ℝ :=
  if 0 < x then Real.arctan (y / x)
  else if x < 0 then
    (if 0 ≤ y then Real.arctan (y / x) + Real.pi else Real.arctan (y / x) - Real.pi)
  else if 0 < y then Real.pi / 2
  else if y < 0 then -(Real.pi / 2)
  else 0

/-- `calculateHeadingToIncidentInRadiansWithRespectToNorth` (lines 66-80). -/
def calculateHeadingToIncidentInRadiansWithRespectToNorth
    (sourceLatDeg sourceLonDeg destinationLatDeg destinationLonDeg : ℝ) : ℝ :=
  let lat1 := toRadiansDeg sourceLatDeg
  let lon1 := toRadiansDeg sourceLonDeg
  let lat2 := toRadiansDeg destinationLatDeg
  let lon2 := toRadiansDeg destinationLonDeg
  let y := Real.sin (lon2 - lon1) * Real.cos lat2
  let x := Real.cos lat1 * Real.sin lat2 -
    Real.sin lat1 * Real.cos lat2 * Real.cos (lon2 - lon1)
  jsAtan2 y x

/-- The JS `%` remainder (sign of the dividend). -/
def jsMod (a b : ℝ) : ℝ := a - b * (jsTrunc (a / b) : ℝ)

/-- `calculateHeadingToIncidentIn360DegreesWithRespectToNorth`
(lines 82-90): `(headingDeg + 360) % 360`. -/
def calculateHeadingToIncidentIn360DegreesWithRespectToNorth
    (lat1Deg lon1Deg lat2Deg lon2Deg : ℝ) : ℝ :=
  jsMod (calculateHeadingToIncidentInRadiansWithRespectToNorth lat1Deg lon1Deg lat2Deg lon2Deg
    * 180 / Real.pi + 360) 360

/-- `calculateHeadingDifferenceDronevsWind` (lines 117-120); the first
argument is the wind FROM-bearing in degrees despite its name. -/
def calculateHeadingDifferenceDronevsWind
    (windspeed sourceLatDeg sourceLonDeg destinationLatDeg destinationLonDeg : ℝ) : ℝ :=
  windspeed - calculateHeadingToIncidentIn360DegreesWithRespectToNorth
    sourceLatDeg sourceLonDeg destinationLatDeg destinationLonDeg

/-- `calculateWindSpeedComponentParallelToDroneHeadingTowardsIncident`
(lines 122-131). -/
def calculateWindSpeedComponentParallelToDroneHeadingTowardsIncident
    (windSpeed windFromDeg sourceLatDeg sourceLonDeg destinationLatDeg destinationLonDeg : ℝ) : ℝ :=
  -(calculateAverageWindSpeedAtDroneCruiseAltitudeInMetersPerSecond windSpeed) *
    Real.cos (toRadiansDeg (calculateHeadingDifferenceDronevsWind windFromDeg
      sourceLatDeg sourceLonDeg destinationLatDeg destinationLonDeg))

/-- `calculateWindSpeedComponentPerpendicularToDirectionOfDroneHeading`
(lines 134-145). -/
def calculateWindSpeedComponentPerpendicularToDirectionOfDroneHeading
    (windSpeed windFromDeg sourceLatDeg sourceLonDeg destinationLatDeg destinationLonDeg : ℝ) : ℝ :=
  -(calculateAverageWindSpeedAtDroneCruiseAltitudeInMetersPerSecond windSpeed) *
    Real.sin (toRadiansDeg (calculateHeadingDifferenceDronevsWind windFromDeg
      sourceLatDeg sourceLonDeg destinationLatDeg destinationLonDeg))

/-- `Math.round(val * 2) / 2`; `Math.round` rounds half toward plus
infinity, i.e. `floor(x + 0.5)`. -/
def roundToNearestHalf (val : ℝ) : ℝ :=
  (⌊val * 2 + 1/2⌋ : ℝ) / 2

/-- The shared tail of both ground-speed functions (lines 188-196 and
242-250): round to the nearest half, replace an exact 0 by 0.01, clamp to
the fleet limit. -/
def applyGroundSpeedPolicy (groundSpeed : ℝ) : ℝ :=
  min (if roundToNearestHalf groundSpeed = 0 then 1/100 else roundToNearestHalf groundSpeed)
    nokiaFleetControlGroundSpeedLimitInMetersPerSecond

/-- `calculateGroundSpeedToIncident` (utils.js lines 199-251). -/
def calculateGroundSpeedToIncident
    (gustSpeed windSpeed windFromDeg sourceLatDeg sourceLonDeg destinationLatDeg destinationLonDeg : ℝ) : ℝ :=
  let adjustedWindSpeed := calculateAverageWindSpeedAtDroneCruiseAltitudeInMetersPerSecond windSpeed
  let maxGust := calculateMaxWindGustSpeedAtDroneCruiseAltitudeInMetersPerSecond gustSpeed
  let windspeedPerpendicular := calculateWindSpeedComponentPerpendicularToDirectionOfDroneHeading
    windSpeed windFromDeg sourceLatDeg sourceLonDeg destinationLatDeg destinationLonDeg
  let windspeedParallel := calculateWindSpeedComponentParallelToDroneHeadingTowardsIncident
    windSpeed windFromDeg sourceLatDeg sourceLonDeg destinationLatDeg destinationLonDeg
  let groundSpeed :=
    if adjustedWindSpeed < maxTotalAirspeedInMetersPerSecond ∧
        maxGust < gustWindSpeedLimitInMetersPerSecond then
      if |windspeedPerpendicular / maxTotalAirspeedInMetersPerSecond| ≤ 1 then
        Real.cos (Real.arcsin (windspeedPerpendicular / maxTotalAirspeedInMetersPerSecond)) *
          maxTotalAirspeedInMetersPerSecond + windspeedParallel
      else 0
    else 0
  applyGroundSpeedPolicy groundSpeed

/-- `calculateGroundSpeedBackHome` (utils.js lines 147-197): identical
except the parallel component is subtracted. -/
def calculateGroundSpeedBackHome
    (gustSpeed windSpeed windFromDeg sourceLatDeg sourceLonDeg destinationLatDeg destinationLonDeg : ℝ) : ℝ :=
  let adjustedWindSpeed := calculateAverageWindSpeedAtDroneCruiseAltitudeInMetersPerSecond windSpeed
  let maxWindGustSpeedAtCruise := calculateMaxWindGustSpeedAtDroneCruiseAltitudeInMetersPerSecond gustSpeed
  let windspeedPerpendicular := calculateWindSpeedComponentPerpendicularToDirectionOfDroneHeading
    windSpeed windFromDeg sourceLatDeg sourceLonDeg destinationLatDeg destinationLonDeg
  let windspeedParallel := calculateWindSpeedComponentParallelToDroneHeadingTowardsIncident
    windSpeed windFromDeg sourceLatDeg sourceLonDeg destinationLatDeg destinationLonDeg
  let groundSpeed :=
    if adjustedWindSpeed < maxTotalAirspeedInMetersPerSecond ∧
        maxWindGustSpeedAtCruise < gustWindSpeedLimitInMetersPerSecond then
      if |windspeedPerpendicular / maxTotalAirspeedInMetersPerSecond| ≤ 1 then
        Real.cos (Real.arcsin (windspeedPerpendicular / maxTotalAirspeedInMetersPerSecond)) *
          maxTotalAirspeedInMetersPerSecond - windspeedParallel
      else 0
    else 0
  applyGroundSpeedPolicy groundSpeed

end

theorem windRatio_one :
    (cruiseAltitudeInMeters / weatherStationAnemometerAltitudeAboveGroundInMeters : ℝ) = 1 := by
  norm_num [cruiseAltitudeInMeters, weatherStationAnemometerAltitudeAboveGroundInMeters]

theorem toUInt32_hellman : toUInt32 hellmanExponentOfWindModel = 0 := by
  rw [toUInt32, jsTrunc, if_pos (by norm_num [hellmanExponentOfWindModel])]
  rw [show ⌊(hellmanExponentOfWindModel : ℝ)⌋ = 0 by
    rw [Int.floor_eq_iff]
    norm_num [hellmanExponentOfWindModel]]
  rfl

theorem natXor_zero (n : ℕ) : Nat.xor n 0 = n := Nat.xor_zero n

theorem calcAvg_as_int (v : ℝ) :
    calculateAverageWindSpeedAtDroneCruiseAltitudeInMetersPerSecond v =
      (fromUInt32 (toUInt32 v) : ℝ) := by
  rw [calculateAverageWindSpeedAtDroneCruiseAltitudeInMetersPerSecond, windRatio_one,
    mul_one, jsBitXor, toUInt32_hellman, natXor_zero]

theorem calcGust_as_int (v : ℝ) :
    calculateMaxWindGustSpeedAtDroneCruiseAltitudeInMetersPerSecond v =
      (fromUInt32 (toUInt32 v) : ℝ) := by
  rw [calculateMaxWindGustSpeedAtDroneCruiseAltitudeInMetersPerSecond, windRatio_one,
    mul_one, jsBitXor, toUInt32_hellman, natXor_zero]

theorem jsTrunc_natCast (n : ℕ) : jsTrunc (n : ℝ) = n := by
  rw [jsTrunc, if_pos (by positivity)]
  exact_mod_cast Int.floor_natCast n

theorem toUInt32_of_trunc {x : ℝ} {n : ℕ} (ht : jsTrunc x = n) (h : n < 4294967296) :
    toUInt32 x = n := by
  rw [toUInt32, ht, Int.emod_eq_of_lt (by positivity) (by exact_mod_cast h)]
  exact Int.toNat_natCast n

theorem calcAvg_smallNat (v : ℝ) (n : ℕ) (ht : jsTrunc v = n) (h : n < 2147483648) :
    calculateAverageWindSpeedAtDroneCruiseAltitudeInMetersPerSecond v = n := by
  rw [calcAvg_as_int, toUInt32_of_trunc ht (by omega), fromUInt32, if_pos h]
  norm_num

theorem calcGust_smallNat (v : ℝ) (n : ℕ) (ht : jsTrunc v = n) (h : n < 2147483648) :
    calculateMaxWindGustSpeedAtDroneCruiseAltitudeInMetersPerSecond v = n := by
  rw [calcGust_as_int, toUInt32_of_trunc ht (by omega), fromUInt32, if_pos h]
  norm_num

theorem jsTrunc_zero : jsTrunc (0 : ℝ) = 0 := by
  rw [show (0 : ℝ) = ((0 : ℕ) : ℝ) by norm_num]
  exact jsTrunc_natCast 0

theorem jsTrunc_two_point_oh_six : jsTrunc (206/100 : ℝ) = ((2 : ℕ) : ℤ) := by
  rw [jsTrunc, if_pos (by norm_num)]
  rw [show (((2 : ℕ) : ℤ)) = (2 : ℤ) by norm_num]
  rw [Int.floor_eq_iff]
  norm_num

theorem jsTrunc_three_point_oh_six : jsTrunc (306/100 : ℝ) = ((3 : ℕ) : ℤ) := by
  rw [jsTrunc, if_pos (by norm_num)]
  rw [show (((3 : ℕ) : ℤ)) = (3 : ℤ) by norm_num]
  rw [Int.floor_eq_iff]
  norm_num

/-- C2 fails on the code: the wind-shear scaling applies JS bitwise `^`
(with `ToInt32` coercions), not exponentiation, so a measured wind of
2.06 m/s comes back as the truncation 2 rather than the power-law value
2.06 (the default cruise and anemometer heights are both 90 m, so the
power law is the identity); the gust function behaves the same way. -/
theorem wind_shear_uses_xor_not_pow :
    calculateAverageWindSpeedAtDroneCruiseAltitudeInMetersPerSecond (206/100) = 2 ∧
    averageWindSpeedAtCruisePowerLaw (206/100) = 206/100 ∧
    calculateMaxWindGustSpeedAtDroneCruiseAltitudeInMetersPerSecond (306/100) = 3 ∧
    maxWindGustSpeedAtCruisePowerLaw (306/100) = 306/100 ∧
    calculateAverageWindSpeedAtDroneCruiseAltitudeInMetersPerSecond (206/100) ≠
      averageWindSpeedAtCruisePowerLaw (206/100) := by
  have h1 : calculateAverageWindSpeedAtDroneCruiseAltitudeInMetersPerSecond (206/100) = 2 := by
    rw [calcAvg_smallNat (206/100) 2 jsTrunc_two_point_oh_six (by norm_num)]
    norm_num
  have h2 : averageWindSpeedAtCruisePowerLaw (206/100) = 206/100 := by
    rw [averageWindSpeedAtCruisePowerLaw, windRatio_one, Real.one_rpow, mul_one]
  have h3 : calculateMaxWindGustSpeedAtDroneCruiseAltitudeInMetersPerSecond (306/100) = 3 := by
    rw [calcGust_smallNat (306/100) 3 jsTrunc_three_point_oh_six (by norm_num)]
    norm_num
  have h4 : maxWindGustSpeedAtCruisePowerLaw (306/100) = 306/100 := by
    rw [maxWindGustSpeedAtCruisePowerLaw, windRatio_one, Real.one_rpow, mul_one]
  refine ⟨h1, h2, h3, h4, ?_⟩
  rw [h1, h2]
  norm_num

theorem applyGroundSpeedPolicy_zero : applyGroundSpeedPolicy 0 = 1/100 := by
  rw [applyGroundSpeedPolicy, roundToNearestHalf]
  rw [show (0 : ℝ) * 2 + 1/2 = 1/2 by norm_num]
  rw [show ⌊(1/2 : ℝ)⌋ = 0 by
    rw [Int.floor_eq_iff]
    norm_num]
  norm_num [nokiaFleetControlGroundSpeedLimitInMetersPerSecond, min_def]

/-- C10: whenever the cruise-altitude-scaled average wind reaches the max
total airspeed or the scaled gust reaches the gust limit, both ground-speed
functions skip the airspeed/crosswind formula and return exactly 0.01,
whatever the wind direction and coordinates. -/
theorem wind_gate_skips_formula (gustSpeed windSpeed windFromDeg sourceLatDeg
    sourceLonDeg destinationLatDeg destinationLonDeg : ℝ)
    (h : maxTotalAirspeedInMetersPerSecond ≤
        calculateAverageWindSpeedAtDroneCruiseAltitudeInMetersPerSecond windSpeed ∨
      gustWindSpeedLimitInMetersPerSecond ≤
        calculateMaxWindGustSpeedAtDroneCruiseAltitudeInMetersPerSecond gustSpeed) :
    calculateGroundSpeedToIncident gustSpeed windSpeed windFromDeg sourceLatDeg
        sourceLonDeg destinationLatDeg destinationLonDeg = 1/100 ∧
      calculateGroundSpeedBackHome gustSpeed windSpeed windFromDeg sourceLatDeg
        sourceLonDeg destinationLatDeg destinationLonDeg = 1/100 := by
  have hneg : ¬ (calculateAverageWindSpeedAtDroneCruiseAltitudeInMetersPerSecond windSpeed <
      maxTotalAirspeedInMetersPerSecond ∧
      calculateMaxWindGustSpeedAtDroneCruiseAltitudeInMetersPerSecond gustSpeed <
        gustWindSpeedLimitInMetersPerSecond) := by
    rcases h with h | h
    · exact fun hc => absurd hc.1 (not_lt.mpr h)
    · exact fun hc => absurd hc.2 (not_lt.mpr h)
  constructor
  · rw [calculateGroundSpeedToIncident]
    rw [if_neg hneg]
    exact applyGroundSpeedPolicy_zero
  · rw [calculateGroundSpeedBackHome]
    rw [if_neg hneg]
    exact applyGroundSpeedPolicy_zero

/-- Witness for C10: a 20 m/s measured wind trips the airspeed gate. -/
theorem wind_gate_skips_formula_witness :
    (maxTotalAirspeedInMetersPerSecond ≤
      calculateAverageWindSpeedAtDroneCruiseAltitudeInMetersPerSecond 20 ∨
      gustWindSpeedLimitInMetersPerSecond ≤
        calculateMaxWindGustSpeedAtDroneCruiseAltitudeInMetersPerSecond 0) ∧
    calculateGroundSpeedToIncident 0 20 0 0 0 0 0 = 1/100 ∧
    calculateGroundSpeedBackHome 0 20 0 0 0 0 0 = 1/100 := by
  have h20 : calculateAverageWindSpeedAtDroneCruiseAltitudeInMetersPerSecond 20 = 20 := by
    rw [calcAvg_smallNat 20 20 (by
      rw [show (20 : ℝ) = ((20 : ℕ) : ℝ) by norm_num]
      exact jsTrunc_natCast 20) (by norm_num)]
    norm_num
  have hgate : maxTotalAirspeedInMetersPerSecond ≤
      calculateAverageWindSpeedAtDroneCruiseAltitudeInMetersPerSecond 20 ∨
      gustWindSpeedLimitInMetersPerSecond ≤
        calculateMaxWindGustSpeedAtDroneCruiseAltitudeInMetersPerSecond 0 := by
    left
    rw [h20]
    norm_num [maxTotalAirspeedInMetersPerSecond]
  obtain ⟨ha, hb⟩ := wind_gate_skips_formula 0 20 0 0 0 0 0 hgate
  exact ⟨hgate, ha, hb⟩

theorem applyGroundSpeedPolicy_shape (x : ℝ) :
    (applyGroundSpeedPolicy x = 1/100 ∨
      ∃ k : ℤ, applyGroundSpeedPolicy x = (k : ℝ)/2) ∧
      applyGroundSpeedPolicy x ≠ 0 ∧ applyGroundSpeedPolicy x ≤ 13 := by
  have h13 : nokiaFleetControlGroundSpeedLimitInMetersPerSecond = 13 := by
    norm_num [nokiaFleetControlGroundSpeedLimitInMetersPerSecond]
  by_cases hr : roundToNearestHalf x = 0
  · rw [applyGroundSpeedPolicy, if_pos hr, h13, min_eq_left (by norm_num)]
    exact ⟨Or.inl rfl, by norm_num, by norm_num⟩
  · rw [applyGroundSpeedPolicy, if_neg hr, h13]
    rcases le_total (roundToNearestHalf x) 13 with h | h
    · rw [min_eq_left h]
      exact ⟨Or.inr ⟨⌊x * 2 + 1/2⌋, rfl⟩, hr, h⟩
    · rw [min_eq_right h]
      exact ⟨Or.inr ⟨26, by norm_num⟩, by norm_num, le_refl _⟩

/-- C3 amended: every returned ground speed is the raw speed rounded to
the nearest 0.5 (so an integer multiple of 0.5) or the 0.01 replacement
for a rounded 0, is never exactly 0, and never exceeds the 13 m/s fleet
cap — but it is not bounded below by 0.01 in general (see the
counterexample), because a large parallel wind component can make the raw
speed, and hence the rounded result, negative. -/
theorem ground_speed_policy_shape_both (gustSpeed windSpeed windFromDeg sourceLatDeg
    sourceLonDeg destinationLatDeg destinationLonDeg : ℝ) :
    ((calculateGroundSpeedToIncident gustSpeed windSpeed windFromDeg sourceLatDeg
        sourceLonDeg destinationLatDeg destinationLonDeg = 1/100 ∨
      ∃ k : ℤ, calculateGroundSpeedToIncident gustSpeed windSpeed windFromDeg sourceLatDeg
        sourceLonDeg destinationLatDeg destinationLonDeg = (k : ℝ)/2) ∧
      calculateGroundSpeedToIncident gustSpeed windSpeed windFromDeg sourceLatDeg
        sourceLonDeg destinationLatDeg destinationLonDeg ≠ 0 ∧
      calculateGroundSpeedToIncident gustSpeed windSpeed windFromDeg sourceLatDeg
        sourceLonDeg destinationLatDeg destinationLonDeg ≤ 13) ∧
    ((calculateGroundSpeedBackHome gustSpeed windSpeed windFromDeg sourceLatDeg
        sourceLonDeg destinationLatDeg destinationLonDeg = 1/100 ∨
      ∃ k : ℤ, calculateGroundSpeedBackHome gustSpeed windSpeed windFromDeg sourceLatDeg
        sourceLonDeg destinationLatDeg destinationLonDeg = (k : ℝ)/2) ∧
      calculateGroundSpeedBackHome gustSpeed windSpeed windFromDeg sourceLatDeg
        sourceLonDeg destinationLatDeg destinationLonDeg ≠ 0 ∧
      calculateGroundSpeedBackHome gustSpeed windSpeed windFromDeg sourceLatDeg
        sourceLonDeg destinationLatDeg destinationLonDeg ≤ 13) :=
  ⟨applyGroundSpeedPolicy_shape _, applyGroundSpeedPolicy_shape _⟩

theorem heading360_zero :
    calculateHeadingToIncidentIn360DegreesWithRespectToNorth 0 0 0 0 = 0 := by
  have hrad : calculateHeadingToIncidentInRadiansWithRespectToNorth 0 0 0 0 = 0 := by
    rw [calculateHeadingToIncidentInRadiansWithRespectToNorth]
    rw [show toRadiansDeg 0 = 0 by simp [toRadiansDeg]]
    simp only [sub_zero, sub_self, Real.sin_zero, Real.cos_zero, zero_mul, mul_zero,
      mul_one, one_mul, sub_zero]
    rw [jsAtan2]
    norm_num
  rw [calculateHeadingToIncidentIn360DegreesWithRespectToNorth, hrad, jsMod]
  rw [show (0 : ℝ) * 180 / Real.pi + 360 = 360 by
    field_simp]
  rw [show (360 : ℝ) / 360 = 1 by norm_num]
  rw [show jsTrunc (1 : ℝ) = 1 by
    rw [jsTrunc, if_pos (by norm_num)]
    exact Int.floor_one]
  norm_num

theorem perp_zero_heading (w : ℝ) :
    calculateWindSpeedComponentPerpendicularToDirectionOfDroneHeading w 0 0 0 0 0 = 0 := by
  rw [calculateWindSpeedComponentPerpendicularToDirectionOfDroneHeading,
    calculateHeadingDifferenceDronevsWind, heading360_zero]
  simp [toRadiansDeg]

theorem par_zero_heading (w : ℝ) :
    calculateWindSpeedComponentParallelToDroneHeadingTowardsIncident w 0 0 0 0 0 =
      -(calculateAverageWindSpeedAtDroneCruiseAltitudeInMetersPerSecond w) := by
  rw [calculateWindSpeedComponentParallelToDroneHeadingTowardsIncident,
    calculateHeadingDifferenceDronevsWind, heading360_zero]
  simp [toRadiansDeg]

theorem calcAvg_wrap :
    calculateAverageWindSpeedAtDroneCruiseAltitudeInMetersPerSecond (2147483648 : ℝ) =
      -2147483648 := by
  have ht : jsTrunc (2147483648 : ℝ) = ((2147483648 : ℕ) : ℤ) := by
    rw [show (2147483648 : ℝ) = ((2147483648 : ℕ) : ℝ) by norm_num]
    exact jsTrunc_natCast 2147483648
  rw [calcAvg_as_int, toUInt32_of_trunc ht (by norm_num), fromUInt32,
    if_neg (by norm_num)]
  norm_num

theorem applyGroundSpeedPolicy_neg_eval :
    applyGroundSpeedPolicy (-2147483635) = -2147483635 := by
  rw [applyGroundSpeedPolicy, roundToNearestHalf]
  rw [show (-2147483635 : ℝ) * 2 + 1/2 = -4294967270 + 1/2 by norm_num]
  rw [show ⌊(-4294967270 + 1/2 : ℝ)⌋ = -4294967270 by
    rw [Int.floor_eq_iff]
    norm_num]
  rw [if_neg (by norm_num)]
  rw [min_eq_left (by norm_num [nokiaFleetControlGroundSpeedLimitInMetersPerSecond])]
  norm_num

/-- C3 counterexample: a non-negative measured wind of 2^31 m/s wraps to
-2^31 through the `ToInt32` of the XOR wind model, passes the `< 13` gate,
and makes the return ground speed -2147483635 m/s — far below the claimed
0.01 m/s floor. -/
theorem ground_speed_below_floor_counterexample :
    calculateGroundSpeedBackHome 0 2147483648 0 0 0 0 0 = -2147483635 ∧
    calculateGroundSpeedBackHome 0 2147483648 0 0 0 0 0 < 1/100 := by
  have hgust : calculateMaxWindGustSpeedAtDroneCruiseAltitudeInMetersPerSecond 0 = 0 := by
    rw [calcGust_smallNat 0 0 jsTrunc_zero (by norm_num)]
    norm_num
  have hmain : calculateGroundSpeedBackHome 0 2147483648 0 0 0 0 0 = -2147483635 := by
    rw [calculateGroundSpeedBackHome]
    rw [calcAvg_wrap, hgust, perp_zero_heading, par_zero_heading]
    rw [if_pos ⟨by norm_num [maxTotalAirspeedInMetersPerSecond],
      by norm_num [gustWindSpeedLimitInMetersPerSecond]⟩]
    rw [if_pos (by norm_num [maxTotalAirspeedInMetersPerSecond])]
    rw [show (0 : ℝ) / maxTotalAirspeedInMetersPerSecond = 0 by
      norm_num [maxTotalAirspeedInMetersPerSecond]]
    rw [Real.arcsin_zero, Real.cos_zero, one_mul, calcAvg_wrap]
    rw [show maxTotalAirspeedInMetersPerSecond - -(-2147483648 : ℝ) = -2147483635 by
      norm_num [maxTotalAirspeedInMetersPerSecond]]
    exact applyGroundSpeedPolicy_neg_eval
  refine ⟨hmain, ?_⟩
  rw [hmain]
  norm_num

/-- Witness for C4 at a concrete input. -/
theorem avoiding_path_endpoints_invariant_witness :
    ([((0 : ℚ), (0 : ℚ)), ((1 : ℚ), (0 : ℚ))] : List Pt).head? = some ((0 : ℚ), (0 : ℚ)) ∧
      ([((0 : ℚ), (0 : ℚ)), ((1 : ℚ), (0 : ℚ))] : List Pt).getLast? = some ((1 : ℚ), (0 : ℚ)) ∧
      2 ≤ ([((0 : ℚ), (0 : ℚ)), ((1 : ℚ), (0 : ℚ))] : List Pt).length :=
  avoiding_path_endpoints_invariant 1 ((0 : ℚ), (0 : ℚ)) ((1 : ℚ), (0 : ℚ)) []
    ⟨[((0 : ℚ), (0 : ℚ)), ((1 : ℚ), (0 : ℚ))], [], []⟩ rfl

end Vectra
